import Mathlib

/-!
Shallow embedding of the marketing funnel analytics engine of `app.py`:
the schema normalizer (`load_data`), the funnel calculator (`calc_funnel`),
the group aggregator (`funnel_table`, the page-1 monthly aggregate and the
page-3 cross pivot), the sample-reliability annotator (`sample_warning`)
and the page-5 profile filter.  Tables are lists of rows, nullable cells
are `Option`, numeric cells are rationals.  Pandas specifics that the
claims depend on are modelled explicitly: `groupby` drops rows whose group
key is null (default `dropna=True`) and yields each observed key once;
`.astype(str)` turns a NaT period into the literal string "NaT"; `.isin`
never matches a null cell; `pd.Categorical` turns out-of-vocabulary values
into null.  Pandas orders group keys (declared category order, else sorted
order) whereas the embedding keeps first-occurrence order; every property
proved below is independent of the key order.
-/

/-- Synonym table for lead-source normalization (`source_map` in `load_data`). -/
def source_map : List (String × String) :=
  [("yahoo", "Yahoo"), ("Yahoo", "Yahoo"),
   ("google", "Google"), ("Google", "Google"),
   ("Facebook", "Facebook"),
   ("microsoft", "Microsoft"), ("Bing Ad", "Microsoft"),
   ("nikkei", "Nikkei"),
   ("careNet", "CareNet"),
   ("line", "LINE"), ("Line", "LINE"),
   ("columnSite", "コラムサイト"),
   ("LinkedIn", "LinkedIn")]

/-- One cell of `df["リードソース"].map(source_map).fillna(df["リードソース"])`:
a string that is a key of the synonym table is replaced by its canonical
value, any other string passes through unchanged. -/
def normalize_source (s : String) : String :=
  (source_map.lookup s).getD s

/-- Declared order of the net-financial-assets bands (`asset_order`). -/
def asset_order : List String :=
  ["2000万円未満", "5000万円未満", "1億円未満", "5億円未満", "5億円以上"]

/-- Declared order of the age brackets (`age_order`). -/
def age_order : List String :=
  ["20代", "30代", "40代", "50代", "60代", "70～74歳", "75歳以上"]

/-- Declared order of the investment-experience levels (`exp_order`). -/
def exp_order : List String :=
  ["なし", "1年未満", "3年未満", "3年以上"]

/-- Declared order of the progress states (`progress_order`). -/
def progress_order : List String :=
  ["未面談", "面談後", "成約"]

/-- One cell of `pd.Categorical(col, categories=order, ordered=True)`:
a value outside the declared category list becomes null (NaN). -/
def to_categorical (order : List String) (v : Option String) : Option String :=
  v.bind fun s => if s ∈ order then some s else none

/-- One raw row of the Excel table, before `load_data` normalizes it.
Nullable cells are `Option`; `created_at` (作成日) is reduced to its
(year, month) pair, which is all the month derivation reads from it. -/
structure RawLead where
  lead_source : Option String
  net_assets : Option String
  age : Option String
  invest_exp : Option String
  occupation : Option String
  progress : Option String
  created_at : Option (Nat × Nat)
  revenue : ℚ
deriving DecidableEq

/-- One row of the normalized table produced by `load_data`. -/
structure Lead where
  lead_source : Option String
  net_assets : Option String
  age : Option String
  invest_exp : Option String
  occupation : Option String
  progress : Option String
  created_at : Option (Nat × Nat)
  revenue : ℚ
deriving DecidableEq

/-- One cell of `df["作成日"].dt.to_period("M").astype(str)`: a present
timestamp becomes its "YYYY-MM" period string, while a missing timestamp
(NaT) becomes the literal string "NaT", because `astype(str)` stringifies
the NaT period instead of keeping it null. -/
def month_str (d : Option (Nat × Nat)) : String :=
  match d with
  | some (y, m) => toString y ++ "-" ++ (if m < 10 then "0" ++ toString m else toString m)
  | none => "NaT"

/-- Normalization of one row inside `load_data`: the lead source is mapped
through the synonym table (a null cell stays null, since `map` keeps NaN and
`fillna` refills it with NaN), the four ordered fields become categoricals,
the occupation is copied from VTX_職業 as is. -/
def load_row (r : RawLead) : Lead :=
  { lead_source := r.lead_source.map normalize_source
    net_assets := to_categorical asset_order r.net_assets
    age := to_categorical age_order r.age
    invest_exp := to_categorical exp_order r.invest_exp
    occupation := r.occupation
    progress := to_categorical progress_order r.progress
    created_at := r.created_at
    revenue := r.revenue }

/-- Table-level normalizer `load_data` (row-wise part): every raw row is
normalized by `load_row`. -/
def load_data (rows : List RawLead) : List Lead :=
  rows.map load_row

/-- Derived column `is_meeting = df["進捗"].isin(["面談後", "成約"]).astype(int)`;
a null progress cell is not a member of the list, giving 0. -/
def is_meeting (r : Lead) : Nat :=
  if r.progress = some "面談後" ∨ r.progress = some "成約" then 1 else 0

/-- Derived column `is_closed = (df["進捗"] == "成約").astype(int)`;
comparing a null cell with a string gives False, hence 0. -/
def is_closed (r : Lead) : Nat :=
  if r.progress = some "成約" then 1 else 0

/-- Result record of `calc_funnel` (its Japanese dict keys romanized:
リード数 = count, 面談数 = meetings, 成約数 = closings, 面談率 = meeting_rate,
成約率 = close_rate, 面談→成約率 = close_from_meeting, 売上合計 = revenue_total,
平均売上 = avg_revenue). -/
structure FunnelMetrics where
  count : Nat
  meetings : Nat
  closings : Nat
  meeting_rate : ℚ
  close_rate : ℚ
  close_from_meeting : ℚ
  revenue_total : ℚ
  avg_revenue : ℚ
deriving DecidableEq

/-- Funnel calculator `calc_funnel(data)`: counts, flag sums, revenue sum,
the guarded rates, and the mean revenue over the closed rows
(`data.loc[data["is_closed"] == 1, "売り上げ"].mean()` = sum over closed rows
divided by the number of closed rows) guarded by `closed > 0`. -/
def calc_funnel (data : List Lead) : FunnelMetrics :=
  let n := data.length
  let meeting := (data.map is_meeting).sum
  let closed := (data.map is_closed).sum
  let revenue := (data.map Lead.revenue).sum
  let closedRows := data.filter fun r => is_closed r == 1
  { count := n
    meetings := meeting
    closings := closed
    meeting_rate := if 0 < n then (meeting : ℚ) / (n : ℚ) * 100 else 0
    close_rate := if 0 < n then (closed : ℚ) / (n : ℚ) * 100 else 0
    close_from_meeting := if 0 < meeting then (closed : ℚ) / (meeting : ℚ) * 100 else 0
    revenue_total := revenue
    avg_revenue :=
      if 0 < closed then (closedRows.map Lead.revenue).sum / (closedRows.length : ℚ) else 0 }

/-- Group rows built by `funnel_table`: the loop
`for name, grp in data.groupby(group_col, observed=True)` — pandas drops the
rows whose group key is null (default `dropna=True`) and yields each
observed key exactly once, with `calc_funnel` applied to the rows carrying
exactly that key. -/
def funnel_table_groups (data : List Lead) (group_col : Lead → Option String) :
    List (String × FunnelMetrics) :=
  ((data.filterMap group_col).dedup).map fun k =>
    (k, calc_funnel (data.filter fun r => group_col r == some k))

/-- Modelled `result.set_index(group_col)` step: on the empty frame
`pd.DataFrame([])` the group column does not exist and `set_index` would
raise a KeyError; on a non-empty frame it succeeds and, under the row
representation used here, changes nothing. -/
def set_index_step (rows : List (String × FunnelMetrics)) :
    Except String (List (String × FunnelMetrics)) :=
  if rows.isEmpty then Except.error "KeyError" else Except.ok rows

/-- Single-axis group aggregator `funnel_table(data, group_col)`: builds the
group rows and applies the index-setting step only under the
`len(result) > 0` guard. -/
def funnel_table (data : List Lead) (group_col : Lead → Option String) :
    Except String (List (String × FunnelMetrics)) :=
  let rows := funnel_table_groups data group_col
  if 0 < rows.length then set_index_step rows else Except.ok rows

/-- Result record of one group of the page-1 monthly aggregate
(リード数 via count of `is_closed`, which is never null, hence the group
size; 面談数, 成約数 and 売上 as sums; the two rate columns added right
after the `agg`, with no zero guard — every observed month group is
non-empty, so the denominator is never zero there). -/
structure MonthlyRow where
  lead_count : Nat
  meetings : Nat
  closings : Nat
  revenue : ℚ
  meeting_rate : ℚ
  close_rate : ℚ
deriving DecidableEq

/-- Page-1 monthly aggregate `df.groupby("月", observed=True).agg(...)` plus
the two derived rate columns.  The 月 column is a plain string column and is
never null (a missing 作成日 yields the string "NaT"), so no row is dropped
by the groupby. -/
def monthly (df : List Lead) : List (String × MonthlyRow) :=
  ((df.map fun r => month_str r.created_at).dedup).map fun m =>
    let grp := df.filter fun r => month_str r.created_at == m
    let n := grp.length
    let mtg := (grp.map is_meeting).sum
    let cls := (grp.map is_closed).sum
    (m, { lead_count := n
          meetings := mtg
          closings := cls
          revenue := (grp.map Lead.revenue).sum
          meeting_rate := (mtg : ℚ) / (n : ℚ) * 100
          close_rate := (cls : ℚ) / (n : ℚ) * 100 })

/-- Key function of the page-3 two-axis groupby: a row contributes an
(x, y) pair only when both dimension cells are non-null (pandas drops a
group key containing NaN). -/
def cross_key (x y : Lead → Option String) (r : Lead) : Option (String × String) :=
  match x r, y r with
  | some a, some b => some (a, b)
  | _, _ => none

/-- Observed key pairs of `df.groupby([x_col, y_col], observed=True)`:
each pair observed in at least one row, exactly once. -/
def cross_keys (df : List Lead) (x y : Lead → Option String) :
    List (String × String) :=
  (df.filterMap (cross_key x y)).dedup

/-- Page-3 `cross_data`: one funnel-metrics row per observed (x, y) pair,
built by `calc_funnel` on the rows carrying exactly that pair. -/
def cross_data (df : List Lead) (x y : Lead → Option String) :
    List ((String × String) × FunnelMetrics) :=
  (cross_keys df x y).map fun k =>
    (k, calc_funnel (df.filter fun r => x r == some k.1 && y r == some k.2))

/-- One cell of `pivot = cross_df.pivot_table(index=x_col, columns=y_col,
values=metric, aggfunc="first")`: the chosen metric of the unique
`cross_data` row for the pair, and `none` for the NaN hole left at an
unobserved pair. -/
def pivot_cell (df : List Lead) (x y : Lead → Option String)
    (metric : FunnelMetrics → ℚ) (a b : String) : Option ℚ :=
  ((cross_data df x y).find? fun p => decide (p.1 = (a, b))).map fun p => metric p.2

/-- One cell of the heatmap text matrix `combined_text`: the n of the cell
comes from `pivot_n` with `fillna(0)`, so an unobserved pair gets n = 0.
A formatted metric value plus an n annotation is shown when n > 0 (with a
bold tag when additionally n ≤ 10; the color attribute of that tag is
dropped from the modelled string), and the em-dash no-data marker "—"
otherwise.  The formatter `fmt` abstracts the three metric-dependent
`text_matrix` branches (percent, yen, integer). -/
def cell_text (df : List Lead) (x y : Lead → Option String)
    (metric : FunnelMetrics → ℚ) (fmt : ℚ → String) (a b : String) : String :=
  match (cross_data df x y).find? fun p => decide (p.1 = (a, b)) with
  | some p =>
      if p.2.count ≤ 10 ∧ 0 < p.2.count then
        fmt (metric p.2) ++ "<br><b>n=" ++ toString p.2.count ++ "</b>"
      else if 0 < p.2.count then
        fmt (metric p.2) ++ "<br>n=" ++ toString p.2.count
      else "—"
  | none => "—"

/-- Selection lists of the four page-5 profile multiselects (リードソース,
純金融資産, 年代, 投資経験; the occupation dimension has no multiselect on
that page). -/
structure ProfileSelections where
  sim_source : List String
  sim_asset : List String
  sim_age : List String
  sim_exp : List String
deriving DecidableEq

/-- One cell of `.isin(sel)`: a null cell is never a member. -/
def opt_isin (v : Option String) (sel : List String) : Bool :=
  match v with
  | some s => sel.contains s
  | none => false

/-- Page-5 profile filter (`sim_df`): each of the four dimensions is
filtered only when its selection list is non-empty — `if sim_source:` is
Python truthiness on the list, so an empty selection list skips that
dimension entirely. -/
def apply_profile_filter (df : List Lead) (sel : ProfileSelections) : List Lead :=
  let d1 := if sel.sim_source.isEmpty then df
            else df.filter fun r => opt_isin r.lead_source sel.sim_source
  let d2 := if sel.sim_asset.isEmpty then d1
            else d1.filter fun r => opt_isin r.net_assets sel.sim_asset
  let d3 := if sel.sim_age.isEmpty then d2
            else d2.filter fun r => opt_isin r.age sel.sim_age
  let d4 := if sel.sim_exp.isEmpty then d3
            else d3.filter fun r => opt_isin r.invest_exp sel.sim_exp
  d4

/-- Confidence tiers of the sample-reliability annotator; the source
function returns one of three HTML badges, and the badge family encodes
the tier (warning badge with 要注意 = Critical, warning badge with △ =
Caution, good badge = Reliable). -/
inductive Tier where
  | Critical
  | Caution
  | Reliable
deriving DecidableEq

/-- Sample-reliability annotator `sample_warning(n)` (the spec calls the
classification `classify_sample`): n ≤ 10 is Critical, 10 < n ≤ 30 is
Caution, n > 30 is Reliable. -/
def sample_warning (n : ℤ) : Tier :=
  if n ≤ 10 then Tier.Critical
  else if n ≤ 30 then Tier.Caution
  else Tier.Reliable

/-! ### Concrete rows used by counterexamples and witnesses -/

/-- Example row with every dimension present, used for the profile-filter
counterexample. -/
def C2row : Lead :=
  { lead_source := some "Yahoo", net_assets := some "1億円未満",
    age := some "40代", invest_exp := some "なし",
    occupation := some "会社員", progress := some "成約",
    created_at := some (2023, 4), revenue := 100 }

/-- Empty selection lists for all four profile dimensions. -/
def C2empty : ProfileSelections :=
  { sim_source := [], sim_asset := [], sim_age := [], sim_exp := [] }

/-- Example row with a present occupation. -/
def C5rowA : Lead :=
  { lead_source := some "Yahoo", net_assets := some "1億円未満",
    age := some "40代", invest_exp := some "なし",
    occupation := some "会社員", progress := some "成約",
    created_at := some (2023, 4), revenue := 100 }

/-- Example row whose occupation is null. -/
def C5rowB : Lead :=
  { lead_source := some "Google", net_assets := none,
    age := some "50代", invest_exp := some "なし",
    occupation := none, progress := some "未面談",
    created_at := some (2023, 5), revenue := 0 }

/-- Two-row table, one row with a null occupation. -/
def C5data : List Lead := [C5rowA, C5rowB]

/-- Example row whose creation timestamp is missing. -/
def C6row : Lead :=
  { lead_source := some "Yahoo", net_assets := some "1億円未満",
    age := some "40代", invest_exp := some "なし",
    occupation := some "会社員", progress := some "成約",
    created_at := none, revenue := 100 }

/-- One-row table whose single row has no creation timestamp. -/
def C6data : List Lead := [C6row]

/-- Example row with a present occupation, for the count-partition witness. -/
def C7row : Lead :=
  { lead_source := some "Google", net_assets := some "5000万円未満",
    age := some "60代", invest_exp := some "3年未満",
    occupation := some "会社役員", progress := some "面談後",
    created_at := some (2024, 2), revenue := 0 }

/-- Raw example row whose progress is 成約, for the flag-invariant witness. -/
def C8raw : RawLead :=
  { lead_source := some "yahoo", net_assets := some "5億円以上",
    age := some "50代", invest_exp := some "3年以上",
    occupation := some "医師", progress := some "成約",
    created_at := some (2024, 11), revenue := 5000000 }

/-- Example row whose occupation is null, for the empty-group-table witness. -/
def C10row : Lead :=
  { lead_source := some "Yahoo", net_assets := some "2000万円未満",
    age := some "30代", invest_exp := some "1年未満",
    occupation := none, progress := some "未面談",
    created_at := some (2023, 12), revenue := 0 }

/-! ### Helper lemmas -/

/-- The closed rows of a table are exactly counted by the sum of the 0/1
`is_closed` column. -/
theorem length_filter_isClosed (data : List Lead) :
    (data.filter fun r => is_closed r == 1).length = (data.map is_closed).sum := by
  induction data with
  | nil => rfl
  | cons a t ih =>
    by_cases h : a.progress = some "成約"
    · rw [List.filter_cons_of_pos (by simp [is_closed, h]), List.length_cons,
        List.map_cons, List.sum_cons, ih, show is_closed a = 1 by simp [is_closed, h]]
      omega
    · rw [List.filter_cons_of_neg (by simp [is_closed, h]),
        List.map_cons, List.sum_cons, ih, show is_closed a = 0 by simp [is_closed, h]]
      omega

/-- The rows carrying the exact group key k are counted by the number of
occurrences of k among the non-null key cells. -/
theorem length_filter_eq_count_filterMap (data : List Lead)
    (gc : Lead → Option String) (k : String) :
    (data.filter fun r => gc r == some k).length = (data.filterMap gc).count k := by
  induction data with
  | nil => rfl
  | cons a t ih =>
    cases h : gc a with
    | none => simp [List.filter_cons, List.filterMap_cons, h, ih]
    | some v =>
      by_cases hv : v = k
      · subst hv
        simp [List.filter_cons, List.filterMap_cons, h, ih, List.count_cons]
      · simp [List.filter_cons, List.filterMap_cons, h, ih, List.count_cons, hv]

/-- When every key cell is non-null, filterMap keeps every row. -/
theorem length_filterMap_of_isSome (data : List Lead) (gc : Lead → Option String)
    (h : ∀ r ∈ data, (gc r).isSome) :
    (data.filterMap gc).length = data.length := by
  induction data with
  | nil => rfl
  | cons a t ih =>
    obtain ⟨v, hv⟩ := Option.isSome_iff_exists.mp (h a (List.mem_cons_self a t))
    simp [List.filterMap_cons, hv,
      ih fun r hr => h r (List.mem_cons_of_mem a hr)]

/-- The non-null key cells are as many as the rows whose key cell is
non-null. -/
theorem length_filterMap_eq_length_filter (data : List Lead)
    (gc : Lead → Option String) :
    (data.filterMap gc).length = (data.filter fun r => (gc r).isSome).length := by
  induction data with
  | nil => rfl
  | cons a t ih =>
    cases h : gc a with
    | none => simp [List.filterMap_cons, List.filter_cons, h, ih]
    | some v => simp [List.filterMap_cons, List.filter_cons, h, ih]

/-- Summing the per-group lead counts of `funnel_table_groups` counts the
non-null key cells of the table. -/
theorem funnel_table_groups_counts (data : List Lead) (gc : Lead → Option String) :
    ((funnel_table_groups data gc).map fun p => p.2.count).sum =
      (data.filterMap gc).length := by
  unfold funnel_table_groups
  rw [List.map_map]
  have h1 : ((data.filterMap gc).dedup.map
        ((fun p : String × FunnelMetrics => p.2.count) ∘ fun k =>
          (k, calc_funnel (data.filter fun r => gc r == some k)))) =
      (data.filterMap gc).dedup.map fun k => (data.filterMap gc).count k := by
    apply List.map_congr_left
    intro k _
    exact length_filter_eq_count_filterMap data gc k
  rw [h1, List.sum_map_count_dedup_eq_length]

/-- Looking up a string that is no key of an association list gives none. -/
theorem lookup_eq_none_of_no_key {β : Type} (l : List (String × β)) (s : String)
    (h : ∀ p ∈ l, p.1 ≠ s) : l.lookup s = none := by
  induction l with
  | nil => rfl
  | cons p t ih =>
    obtain ⟨k, v⟩ := p
    have hk : k ≠ s := h (k, v) (List.mem_cons_self (k, v) t)
    have hb : (s == k) = false := by simpa using Ne.symm hk
    simp only [List.lookup, hb]
    exact ih fun q hq => h q (List.mem_cons_of_mem (k, v) hq)

/-- The two-axis key function yields a pair exactly when both dimension
cells are non-null with those values. -/
theorem cross_key_eq_some (x y : Lead → Option String) (r : Lead) (a b : String) :
    cross_key x y r = some (a, b) ↔ x r = some a ∧ y r = some b := by
  unfold cross_key
  cases hx : x r <;> cases hy : y r <;> simp

/-- Membership in the observed cross keys is exactly observation in a row. -/
theorem mem_cross_keys (df : List Lead) (x y : Lead → Option String)
    (a b : String) :
    (a, b) ∈ cross_keys df x y ↔ ∃ r ∈ df, x r = some a ∧ y r = some b := by
  unfold cross_keys
  rw [List.mem_dedup, List.mem_filterMap]
  constructor
  · rintro ⟨r, hr, hk⟩
    exact ⟨r, hr, (cross_key_eq_some x y r a b).1 hk⟩
  · rintro ⟨r, hr, h1, h2⟩
    exact ⟨r, hr, (cross_key_eq_some x y r a b).2 ⟨h1, h2⟩⟩

/-- Finding a key in a keyed map of a key list reduces to key membership. -/
theorem find_map_key {K V : Type} [DecidableEq K] (ks : List K) (g : K → V) (k : K) :
    ((ks.map fun a => (a, g a)).find? fun p => decide (p.1 = k)) =
      if k ∈ ks then some (k, g k) else none := by
  induction ks with
  | nil => simp
  | cons a t ih =>
    by_cases h : a = k
    · subst h
      simp [List.find?]
    · rw [List.map_cons, List.find?_cons_of_neg _ (by simp [h]), ih]
      simp [Ne.symm h]

/-! ### Claim theorems -/

/-- C1: calc_funnel returns count = number of rows, meetings = sum of
is_meeting, closings = sum of is_closed, revenue_total = sum of revenue
over all rows, meeting_rate = meetings/count*100, close_rate =
closings/count*100, close_given_meeting_rate = closings/meetings*100, and
revenue_avg = (sum of revenue over the closed rows)/closings, where every
rate or average whose denominator is zero is the defined value 0; on the
empty row set every field is 0 and no division error occurs. -/
theorem calc_funnel_spec (data : List Lead) :
    (calc_funnel data).count = data.length ∧
    (calc_funnel data).meetings = (data.map is_meeting).sum ∧
    (calc_funnel data).closings = (data.map is_closed).sum ∧
    (calc_funnel data).revenue_total = (data.map Lead.revenue).sum ∧
    (calc_funnel data).meeting_rate =
      (if data.length = 0 then 0
       else ((data.map is_meeting).sum : ℚ) / (data.length : ℚ) * 100) ∧
    (calc_funnel data).close_rate =
      (if data.length = 0 then 0
       else ((data.map is_closed).sum : ℚ) / (data.length : ℚ) * 100) ∧
    (calc_funnel data).close_from_meeting =
      (if (data.map is_meeting).sum = 0 then 0
       else ((data.map is_closed).sum : ℚ) / ((data.map is_meeting).sum : ℚ) * 100) ∧
    (calc_funnel data).avg_revenue =
      (if (data.map is_closed).sum = 0 then 0
       else ((data.filter fun r => is_closed r == 1).map Lead.revenue).sum /
         (((data.map is_closed).sum : ℚ))) ∧
    calc_funnel [] =
      { count := 0, meetings := 0, closings := 0, meeting_rate := 0,
        close_rate := 0, close_from_meeting := 0, revenue_total := 0,
        avg_revenue := 0 } := by
  refine ⟨rfl, rfl, rfl, rfl, ?_, ?_, ?_, ?_, rfl⟩ <;> simp only [calc_funnel]
  · rcases Nat.eq_zero_or_pos data.length with h | h
    · simp [h]
    · rw [if_pos h, if_neg (by omega : ¬ data.length = 0)]
  · rcases Nat.eq_zero_or_pos data.length with h | h
    · simp [h]
    · rw [if_pos h, if_neg (by omega : ¬ data.length = 0)]
  · rcases Nat.eq_zero_or_pos (data.map is_meeting).sum with h | h
    · simp [h]
    · rw [if_pos h, if_neg (by omega : ¬ (data.map is_meeting).sum = 0)]
  · rcases Nat.eq_zero_or_pos (data.map is_closed).sum with h | h
    · simp [h]
    · rw [if_pos h, if_neg (by omega : ¬ (data.map is_closed).sum = 0),
        length_filter_isClosed]

/-- C3: sample_warning (the classification the spec names classify_sample)
maps every integer n ≤ 10 to Critical, every 10 < n ≤ 30 to Caution and
every n > 30 to Reliable; in particular 10 ↦ Critical, 11 ↦ Caution,
30 ↦ Caution, 31 ↦ Reliable. -/
theorem sample_warning_spec (n : ℤ) :
    (sample_warning n = Tier.Critical ↔ n ≤ 10) ∧
    (sample_warning n = Tier.Caution ↔ 10 < n ∧ n ≤ 30) ∧
    (sample_warning n = Tier.Reliable ↔ 30 < n) ∧
    sample_warning 10 = Tier.Critical ∧
    sample_warning 11 = Tier.Caution ∧
    sample_warning 30 = Tier.Caution ∧
    sample_warning 31 = Tier.Reliable := by
  refine ⟨?_, ?_, ?_, by decide, by decide, by decide, by decide⟩ <;>
    · unfold sample_warning
      split_ifs with h1 h2 <;> simp <;> omega

/-- C8: for every row of the table produced by the normalizer load_data,
is_closed = 1 implies is_meeting = 1 (the flags are derived from the
progress cell, so closing forces having met), whatever the raw input. -/
theorem is_closed_implies_is_meeting (rows : List RawLead) (r : Lead)
    (_hmem : r ∈ load_data rows) (h : is_closed r = 1) : is_meeting r = 1 := by
  unfold is_meeting
  by_cases hp : r.progress = some "成約"
  · exact if_pos (Or.inr hp)
  · unfold is_closed at h
    rw [if_neg hp] at h
    exact absurd h (by omega)

/-- Witness for is_closed_implies_is_meeting at a concrete loaded row. -/
theorem is_closed_implies_is_meeting_witness :
    (load_row C8raw ∈ load_data [C8raw] ∧ is_closed (load_row C8raw) = 1) ∧
    is_meeting (load_row C8raw) = 1 :=
  ⟨⟨by decide, by decide⟩,
    is_closed_implies_is_meeting [C8raw] (load_row C8raw) (by decide) (by decide)⟩

/-- C9: a raw lead-source string that is not a key of the synonym table
passes through normalization unchanged; no error is raised for unknown
sources (the function is total). -/
theorem normalize_source_passthrough (s : String)
    (h : ∀ p ∈ source_map, p.1 ≠ s) : normalize_source s = s := by
  unfold normalize_source
  rw [lookup_eq_none_of_no_key source_map s h]
  rfl

/-- Witness for normalize_source_passthrough at a concrete unmapped string. -/
theorem normalize_source_passthrough_witness :
    (∀ p ∈ source_map, p.1 ≠ "メルマガ") ∧ normalize_source "メルマガ" = "メルマガ" :=
  ⟨by decide, normalize_source_passthrough "メルマガ" (by decide)⟩

/-- C10: on a table in which no row has a non-null value for the grouping
dimension — including the empty table — funnel_table returns the empty
table with no error: the observed group list is empty and the guarded
index-setting step is skipped. -/
theorem funnel_table_all_null_ok (data : List Lead) (gc : Lead → Option String)
    (h : ∀ r ∈ data, gc r = none) : funnel_table data gc = Except.ok [] := by
  have hfm : data.filterMap gc = [] := List.filterMap_eq_nil_iff.mpr h
  unfold funnel_table funnel_table_groups
  rw [hfm]
  rfl

/-- Witness for funnel_table_all_null_ok: a one-row table whose single row
has a null occupation. -/
theorem funnel_table_all_null_ok_witness :
    (∀ r ∈ [C10row], r.occupation = none) ∧
    funnel_table [C10row] Lead.occupation = Except.ok [] :=
  ⟨by decide, funnel_table_all_null_ok [C10row] Lead.occupation (by decide)⟩

/-- C2 counterexample: with every selection list empty the page-5 profile
filter returns the full one-row table, not zero rows — `if sim_source:` is
false on an empty list, so each empty selection skips its filter. -/
theorem profile_filter_empty_is_bypass :
    apply_profile_filter [C2row] C2empty = [C2row] ∧
    ([C2row] : List Lead).length = 1 :=
  ⟨rfl, rfl⟩

/-- C2 amended: a dimension whose selection list is empty imposes no
constraint (its filter is skipped), so with every selection list empty the
full table is returned; the page-5 filter has four selectable dimensions,
not five. -/
theorem profile_filter_all_empty_full (df : List Lead) :
    apply_profile_filter df C2empty = df :=
  rfl

/-- C5 counterexample: on a two-row table whose second row has a null
occupation, the group table over occupation has the single group 会社員
with one lead — the null row is silently dropped, it does not form its own
group, and the group counts sum to 1 while the table has 2 rows. -/
theorem funnel_table_drops_null_key_rows :
    (funnel_table_groups C5data Lead.occupation).map Prod.fst = ["会社員"] ∧
    ((funnel_table_groups C5data Lead.occupation).map fun p => p.2.count).sum = 1 ∧
    C5data.length = 2 := by
  refine ⟨by decide, by decide, rfl⟩

/-- C5 amended: funnel_table groups rows by exact equality on the
dimension value, but rows whose dimension value is null are dropped by the
groupby, so the groups partition the rows with a non-null dimension value
(their counts sum to the number of such rows), not the whole table. -/
theorem funnel_table_partitions_nonnull (data : List Lead)
    (gc : Lead → Option String) :
    ((funnel_table_groups data gc).map fun p => p.2.count).sum =
      (data.filter fun r => (gc r).isSome).length := by
  rw [funnel_table_groups_counts, length_filterMap_eq_length_filter]

/-- C6 counterexample: a one-row table whose row has no created_at gets the
month bucket "NaT" with one lead in the monthly aggregate — the row is not
excluded from month-bucketed aggregates. -/
theorem monthly_missing_timestamp_gets_bucket :
    (monthly C6data).map Prod.fst = ["NaT"] ∧
    ((monthly C6data).map fun p => p.2.lead_count) = [1] ∧
    (calc_funnel C6data).count = 1 := by
  refine ⟨by decide, by decide, rfl⟩

/-- C6 amended: a row whose created_at is missing receives the literal
month string "NaT" and is included (and counted) in the monthly aggregate
under that bucket, and it is also counted by the ungrouped whole-table
calc_funnel. -/
theorem monthly_nat_bucket (df : List Lead) (r : Lead) (hr : r ∈ df)
    (hn : r.created_at = none) :
    (∃ agg, ("NaT", agg) ∈ monthly df ∧ 0 < agg.lead_count ∧
      agg.lead_count = (df.filter fun s => month_str s.created_at == "NaT").length) ∧
    (calc_funnel df).count = df.length := by
  constructor
  · have hkey : month_str r.created_at = "NaT" := by rw [hn]; rfl
    have hmem : "NaT" ∈ (df.map fun s => month_str s.created_at).dedup := by
      rw [List.mem_dedup]
      exact List.mem_map.mpr ⟨r, hr, hkey⟩
    refine ⟨_, List.mem_map.mpr ⟨"NaT", hmem, rfl⟩, ?_, rfl⟩
    have hrg : r ∈ df.filter fun s => month_str s.created_at == "NaT" := by
      rw [List.mem_filter]
      exact ⟨hr, by simp [hkey]⟩
    exact List.length_pos_of_mem hrg
  · rfl

/-- Witness for monthly_nat_bucket at the concrete one-row table. -/
theorem monthly_nat_bucket_witness :
    (C6row ∈ C6data ∧ C6row.created_at = none) ∧
    ((∃ agg, ("NaT", agg) ∈ monthly C6data ∧ 0 < agg.lead_count ∧
      agg.lead_count = (C6data.filter fun s => month_str s.created_at == "NaT").length) ∧
    (calc_funnel C6data).count = C6data.length) :=
  ⟨⟨by decide, rfl⟩, monthly_nat_bucket C6data C6row (by decide) rfl⟩

/-- C7: when no row has a null value for the grouping dimension, the
per-group lead counts of the single-axis group table sum to the
whole-table lead count of calc_funnel. -/
theorem funnel_table_counts_total (data : List Lead) (gc : Lead → Option String)
    (h : ∀ r ∈ data, (gc r).isSome) :
    ((funnel_table_groups data gc).map fun p => p.2.count).sum =
      (calc_funnel data).count := by
  rw [funnel_table_groups_counts, length_filterMap_of_isSome data gc h]
  rfl

/-- Witness for funnel_table_counts_total at a concrete one-row table with
a non-null occupation. -/
theorem funnel_table_counts_total_witness :
    (∀ r ∈ [C7row], (Lead.occupation r).isSome) ∧
    ((funnel_table_groups [C7row] Lead.occupation).map fun p => p.2.count).sum =
      (calc_funnel [C7row]).count :=
  ⟨by decide, funnel_table_counts_total [C7row] Lead.occupation (by decide)⟩

/-- Any cell text carrying an n annotation differs from the one-character
em-dash no-data marker, by length. -/
theorem n_annotation_ne_dash (s t u : String) :
    s ++ "<br>n=" ++ t ≠ "—" ∧ s ++ "<br><b>n=" ++ t ++ u ≠ "—" := by
  have h1 : ("—" : String).length = 1 := by decide
  have h6 : ("<br>n=" : String).length = 6 := by decide
  have h9 : ("<br><b>n=" : String).length = 9 := by decide
  constructor
  · intro h
    have hl := congrArg String.length h
    simp only [String.length_append] at hl
    omega
  · intro h
    have hl := congrArg String.length h
    simp only [String.length_append] at hl
    omega

/-- The rendered cell reduces to a lookup on the observed key pairs: an
observed pair shows the branch on its group, an unobserved pair shows the
no-data marker. -/
theorem cell_text_eq (df : List Lead) (x y : Lead → Option String)
    (metric : FunnelMetrics → ℚ) (fmt : ℚ → String) (a b : String) :
    cell_text df x y metric fmt a b =
      (if (a, b) ∈ cross_keys df x y then
        (if (calc_funnel (df.filter fun r => x r == some a && y r == some b)).count ≤ 10 ∧
            0 < (calc_funnel (df.filter fun r => x r == some a && y r == some b)).count then
          fmt (metric (calc_funnel (df.filter fun r => x r == some a && y r == some b))) ++
            "<br><b>n=" ++
            toString (calc_funnel (df.filter fun r => x r == some a && y r == some b)).count ++
            "</b>"
        else if 0 < (calc_funnel (df.filter fun r => x r == some a && y r == some b)).count then
          fmt (metric (calc_funnel (df.filter fun r => x r == some a && y r == some b))) ++
            "<br>n=" ++
            toString (calc_funnel (df.filter fun r => x r == some a && y r == some b)).count
        else "—")
      else "—") := by
  unfold cell_text cross_data
  rw [find_map_key]
  by_cases hmem : (a, b) ∈ cross_keys df x y
  · rw [if_pos hmem, if_pos hmem]
  · rw [if_neg hmem, if_neg hmem]

/-- C4: in the two-axis pivot every (x, y) combination observed in at
least one input row appears exactly once among the cross keys (the key
list is duplicate-free and holds exactly the observed pairs), and the
rendered cell text is the distinguished no-data marker "—" precisely for
the unobserved combinations — and that marker is not the string "0" — so
a zero-valued observed cell stays distinguishable from a cell with no
leads. -/
theorem cross_pivot_spec (df : List Lead) (x y : Lead → Option String)
    (metric : FunnelMetrics → ℚ) (fmt : ℚ → String) (a b : String) :
    (cross_keys df x y).Nodup ∧
    ((a, b) ∈ cross_keys df x y ↔ ∃ r ∈ df, x r = some a ∧ y r = some b) ∧
    (cell_text df x y metric fmt a b = "—" ↔
      ¬ ∃ r ∈ df, x r = some a ∧ y r = some b) ∧
    ("—" : String) ≠ "0" := by
  refine ⟨List.nodup_dedup _, mem_cross_keys df x y a b, ?_, by decide⟩
  rw [cell_text_eq]
  by_cases hmem : (a, b) ∈ cross_keys df x y
  · rw [if_pos hmem]
    obtain ⟨r, hr, hxa, hyb⟩ := (mem_cross_keys df x y a b).1 hmem
    have hrg : r ∈ df.filter fun s => x s == some a && y s == some b := by
      rw [List.mem_filter]
      exact ⟨hr, by simp [hxa, hyb]⟩
    have hpos :
        0 < (calc_funnel (df.filter fun s => x s == some a && y s == some b)).count :=
      List.length_pos_of_mem hrg
    refine iff_of_false ?_ (not_not_intro ⟨r, hr, hxa, hyb⟩)
    split_ifs with h1
    · exact (n_annotation_ne_dash _ _ "</b>").2
    · exact (n_annotation_ne_dash _ _ "").1
  · rw [if_neg hmem]
    exact iff_of_true rfl fun hE => hmem ((mem_cross_keys df x y a b).2 hE)
